import Mathlib

/-!
Verification of the little-blue-booth health-kiosk repository.

Shallow embedding of:
  - src/little-blue-booth/src/app/api/tavily-search/route.ts
    (the tavily-search POST handler and the realtime-session GET handler)
  - the HomePage client component (connection effect, continuous-analysis
    effect, completed-jobs effect, handleTogglePause, handleFinishConsultation)
  - the Prisma relational schema (Session, Conversation, ChatMessage,
    HealthMarker)

External services (request.json, the Tavily client, fetch to the OpenAI API,
pauseSession / resumeSession, the mutation endpoints) are passed in as
explicit `Except`-valued arguments: `.ok` models a resolved promise and
`.error` a rejected one.
-/

namespace Booth

/-- JSON values as the route handlers see them after `request.json()` /
`response.json()`. Numbers are modelled as integers; no claim in scope
depends on fractional values. -/
inductive Json where
  | null
  | bool (b : Bool)
  | num (n : Int)
  | str (s : String)
  | arr (elems : List Json)
  | obj (fields : List (String × Json))

namespace Json

/-- JavaScript property access `body.key` on a parsed JSON value: a lookup
that yields `none` on non-objects and on absent keys (i.e. `undefined`). -/
def lookup (key : String) : Json → Option Json
  | .obj fields => List.lookup key fields
  | _ => none

/-- Runtime check `typeof v === "string"`. -/
def isStr : Json → Bool
  | .str _ => true
  | _ => false

/-- Extract the payload of a JSON string (unreached on non-strings in all
uses below, which guard with `isStr`). -/
def asStr : Json → String
  | .str s => s
  | _ => ""

end Json

/-- Substring search on character lists, used to model
`String.prototype.includes`. -/
def listContainsSub : List Char → List Char → Bool
  | _, [] => true
  | [], _ :: _ => false
  | h :: t, needle =>
    if List.isPrefixOf needle (h :: t) then true else listContainsSub t needle

/-- JavaScript `hay.includes(needle)`. -/
def containsSub (hay needle : String) : Bool :=
  listContainsSub hay.data needle.data

-- JSON.stringify on the modelled JSON values (escaping of special
-- characters inside strings is elided; no claim observes the text).
mutual
def jsonStringify : Json → String
  | .null => "null"
  | .bool true => "true"
  | .bool false => "false"
  | .num n => toString n
  | .str s => "\"" ++ s ++ "\""
  | .arr elems => "[" ++ String.intercalate "," (jsonStringifyList elems) ++ "]"
  | .obj fields => "\x7b" ++ String.intercalate "," (jsonStringifyObj fields) ++ "\x7d"
def jsonStringifyList : List Json → List String
  | [] => []
  | j :: rest => jsonStringify j :: jsonStringifyList rest
def jsonStringifyObj : List (String × Json) → List String
  | [] => []
  | (k, v) :: rest => ("\"" ++ k ++ "\":" ++ jsonStringify v) :: jsonStringifyObj rest
end

-- ────────────────────────────────────────────────────────────────────────
--  Zod combinators used by TavilySearchSchema
-- ────────────────────────────────────────────────────────────────────────

/-- `z.string()`. -/
def zString : Json → Except String String
  | .str s => .ok s
  | _ => .error "Expected string"

/-- `z.enum([...])`. -/
def zEnum (allowed : List String) : Json → Except String String
  | .str s => if allowed.contains s then .ok s else .error "Invalid enum value"
  | _ => .error "Expected string"

/-- `z.number()`. -/
def zNumber : Json → Except String Int
  | .num n => .ok n
  | _ => .error "Expected number"

/-- `z.number().min(lo).max(hi)`. -/
def zNumberMinMax (lo hi : Int) (j : Json) : Except String Int :=
  match zNumber j with
  | .error e => .error e
  | .ok n =>
    if n < lo then .error "Too small"
    else if hi < n then .error "Too big"
    else .ok n

/-- `z.boolean()`. -/
def zBool : Json → Except String Bool
  | .bool b => .ok b
  | _ => .error "Expected boolean"

/-- Value of the `z.union([z.boolean(), z.string()])` field. -/
inductive BoolOrString where
  | bool (b : Bool)
  | str (s : String)
  deriving DecidableEq, Repr

/-- `z.union([z.boolean(), z.string()])`. -/
def zBoolOrString : Json → Except String BoolOrString
  | .bool b => .ok (.bool b)
  | .str s => .ok (.str s)
  | _ => .error "Invalid union value"

/-- `z.array(z.string())`. -/
def zStringArray : Json → Except String (List String)
  | .arr elems => elems.mapM zString
  | _ => .error "Expected array"

/-- Required field of a `z.object`: absent key fails. -/
def zField (body : Json) (key : String) (p : Json → Except String α) : Except String α :=
  match body.lookup key with
  | none => .error ("Required: " ++ key)
  | some v => p v

/-- `.optional().default(d)` field: absent key yields the default. -/
def zFieldDefault (body : Json) (key : String) (p : Json → Except String α) (d : α) :
    Except String α :=
  match body.lookup key with
  | none => .ok d
  | some v => p v

/-- `.optional()` field without a default: absent key yields `none`. -/
def zFieldOpt (body : Json) (key : String) (p : Json → Except String α) :
    Except String (Option α) :=
  match body.lookup key with
  | none => .ok none
  | some v => (p v).map some

-- ────────────────────────────────────────────────────────────────────────
--  tavily-search route: TavilySearchSchema and POST
-- ────────────────────────────────────────────────────────────────────────

/-- The validated search parameters produced by `TavilySearchSchema.parse`. -/
structure TavilyParams where
  query : String
  searchDepth : String
  topic : String
  days : Int
  timeRange : Option String
  maxResults : Int
  includeImages : Bool
  includeImageDescriptions : Bool
  includeAnswer : BoolOrString
  includeRawContent : Bool
  includeDomains : List String
  excludeDomains : List String
  deriving DecidableEq, Repr

/-- `TavilySearchSchema.parse(body)`: field-by-field translation of the zod
object at the top of route.ts. `.ok` is a successful parse, `.error` the
thrown ZodError. -/
def TavilySearchSchema (body : Json) : Except String TavilyParams := do
  let query ← zField body "query" zString
  let searchDepth ← zFieldDefault body "searchDepth" (zEnum ["basic", "advanced"]) "basic"
  let topic ← zFieldDefault body "topic" (zEnum ["general", "news"]) "general"
  let days ← zFieldDefault body "days" zNumber 3
  let timeRange ← zFieldOpt body "timeRange" zString
  let maxResults ← zFieldDefault body "maxResults" (zNumberMinMax 0 20) 5
  let includeImages ← zFieldDefault body "includeImages" zBool false
  let includeImageDescriptions ← zFieldDefault body "includeImageDescriptions" zBool false
  let includeAnswer ← zFieldDefault body "includeAnswer" zBoolOrString (.bool false)
  let includeRawContent ← zFieldDefault body "includeRawContent" zBool false
  let includeDomains ← zFieldDefault body "includeDomains" zStringArray []
  let excludeDomains ← zFieldDefault body "excludeDomains" zStringArray []
  pure { query, searchDepth, topic, days, timeRange, maxResults, includeImages,
         includeImageDescriptions, includeAnswer, includeRawContent,
         includeDomains, excludeDomains }

/-- An HTTP response produced with `NextResponse.json` (status 200 when no
status option is given). -/
structure RouteResponse where
  status : Nat
  body : Json

/-- The catch block of the tavily-search POST handler: every thrown error is
turned into a 500 response with the success-false body. -/
def tavilyCatch (msg : String) : RouteResponse :=
  { status := 500, body := .obj [("success", .bool false), ("error", .str msg)] }

/-- POST handler of the tavily-search route. `requestBody` is the outcome of
`await request.json()`; `search` is the Tavily client call
`client.search(params)`, `.error` modelling a rejected promise. Each
`.error` propagates to the single catch block (`tavilyCatch`). -/
def POST (requestBody : Except String Json) (search : TavilyParams → Except String Json) :
    RouteResponse :=
  match requestBody with
  | .error msg => tavilyCatch msg
  | .ok body =>
    match TavilySearchSchema body with
    | .error msg => tavilyCatch msg
    | .ok params =>
      match search params with
      | .error msg => tavilyCatch msg
      | .ok result =>
        { status := 200, body := .obj [("success", .bool true), ("result", result)] }

-- ────────────────────────────────────────────────────────────────────────
--  realtime-session route: GET
-- ────────────────────────────────────────────────────────────────────────

/-- The upstream response of the fetch to the OpenAI realtime-sessions
endpoint: its `ok` flag, numeric `status`, and JSON body. -/
structure UpstreamResponse where
  ok : Bool
  status : Nat
  body : Json

/-- The catch block of the realtime-session GET handler. -/
def realtimeCatch (msg : String) : RouteResponse :=
  { status := 500,
    body := .obj [("error", .str "Failed to create session"), ("details", .str msg)] }

/-- GET handler of the realtime-session route. `fetchResult` is the outcome
of the `fetch` to the OpenAI API (`.error` models a rejected fetch). On a
non-OK response the handler throws the stringified error details, and every
throw is caught and turned into a 500 (`realtimeCatch`). -/
def GET (fetchResult : Except String UpstreamResponse) : RouteResponse :=
  match fetchResult with
  | .error msg => realtimeCatch msg
  | .ok sessionResponse =>
    if !sessionResponse.ok then
      realtimeCatch ("OpenAI API error: " ++ toString sessionResponse.status ++ " - "
        ++ jsonStringify sessionResponse.body)
    else
      { status := 200, body := sessionResponse.body }

-- ────────────────────────────────────────────────────────────────────────
--  HomePage: connection-management effect
-- ────────────────────────────────────────────────────────────────────────

/-- What one run of `handleConnection` does: call `connect()`, call
`disconnect()`, or neither. -/
inductive ConnAction where
  | connect
  | disconnect
  | skip
  deriving DecidableEq, Repr

/-- One run of the connection effect `handleConnection` in HomePage. -/
def handleConnection (isConsultationStarted isConnected isLoading : Bool) : ConnAction :=
  if isConsultationStarted && !isConnected && !isLoading then .connect
  else if !isConsultationStarted && isConnected then .disconnect
  else .skip

-- ────────────────────────────────────────────────────────────────────────
--  HomePage: handleTogglePause
-- ────────────────────────────────────────────────────────────────────────

/-- `handleTogglePause`: flips `isPaused` only after the awaited
`pauseSession()` / `resumeSession()` promise resolves; a rejection is caught
and the state setter is never reached. Returns the resulting `isPaused`. -/
def handleTogglePause (isPaused : Bool)
    (pauseSession resumeSession : Except String Unit) : Bool :=
  if !isPaused then
    match pauseSession with
    | .ok _ => true
    | .error _ => isPaused
  else
    match resumeSession with
    | .ok _ => false
    | .error _ => isPaused

-- ────────────────────────────────────────────────────────────────────────
--  HomePage: continuous-analysis effect
-- ────────────────────────────────────────────────────────────────────────

/-- A conversation message as read by the continuous-analysis effect. -/
structure Msg where
  role : String
  content : String
  timestamp : String
  deriving DecidableEq, Repr

/-- The skip condition at the top of `performContinuousAnalysis`: not a user
message, an analysis result, or already analyzed. -/
def analysisSkipGuard (lastMessage : Msg)
    (lastAnalyzedMessage : Option (String × String)) : Bool :=
  lastMessage.role != "user"
    || containsSub lastMessage.content "[Background Analysis]"
    || (match lastAnalyzedMessage with
        | some r => r.1 == lastMessage.timestamp && r.2 == lastMessage.content
        | none => false)

/-- One run of `performContinuousAnalysis`. The first component of the
result is the updated `lastAnalyzedMessageRef` (timestamp, content); the
second is whether the analysis mutation was submitted. The ref is written
before the mutation is awaited, so a rejected mutation still marks the
message as analyzed. -/
def performContinuousAnalysis (messages : List Msg)
    (lastAnalyzedMessage : Option (String × String)) :
    Option (String × String) × Bool :=
  match messages.getLast? with
  | none => (lastAnalyzedMessage, false)
  | some lastMessage =>
    if analysisSkipGuard lastMessage lastAnalyzedMessage then
      (lastAnalyzedMessage, false)
    else
      (some (lastMessage.timestamp, lastMessage.content), true)

/-- Runs of the continuous-analysis effect over a sequence of message-list
snapshots, starting from an empty `lastAnalyzedMessageRef`; collects the
last messages for which an analysis request was submitted. -/
def analysisSubmissions (runs : List (List Msg)) : List Msg :=
  (runs.foldl
    (fun (acc : Option (String × String) × List Msg) messages =>
      let res := performContinuousAnalysis messages acc.1
      if res.2 then
        match messages.getLast? with
        | some m => (res.1, acc.2 ++ [m])
        | none => (res.1, acc.2)
      else (res.1, acc.2))
    (none, [])).2

-- ────────────────────────────────────────────────────────────────────────
--  HomePage: completed-jobs effect
-- ────────────────────────────────────────────────────────────────────────

/-- An insight displayed in the InsightsList. -/
structure Insight where
  id : String
  content : String
  timestamp : String
  deriving DecidableEq, Repr

/-- The `data` payload a polled job may carry. The TypeScript interface
declares `processed: boolean` and `data: string`, but the effect re-checks
both at runtime, so the fields are modelled as arbitrary JSON values. -/
structure JobData where
  processed : Json
  data : Json

/-- One entry of the `pollJobStatus` query result. -/
structure JobResult where
  jobId : String
  status : String
  data : Option JobData

/-- The filter predicate of the completed-jobs effect:
status is "completed", data is non-null, `data.processed === true`, and
`typeof data.data === "string"`. -/
def isCompletedJob (js : JobResult) : Bool :=
  if js.status != "completed" then false
  else
    match js.data with
    | none => false
    | some jobData =>
      (match jobData.processed with
       | .bool true => true
       | _ => false) && jobData.data.isStr

/-- The `job.data.data` string of a completed job. -/
def jobAnalysisData (js : JobResult) : String :=
  match js.data with
  | some jobData => jobData.data.asStr
  | none => ""

/-- The component state touched by the completed-jobs effect, plus the
instructions strings pushed through `sendMessage`. -/
structure CompletedJobsState where
  insights : List Insight
  workerIds : List String
  lastAnalysisTimestamp : Option String
  sentMessages : List String
  deriving DecidableEq, Repr

/-- Body of the `completedJobs.forEach` loop: one completed job sets the
timestamp, appends one insight, and sends one background-analysis message.
The second component counts iterations so `now` can supply the per-iteration
`new Date().toISOString()` value. -/
def completedJobStep (now : Nat → String)
    (acc : CompletedJobsState × Nat) (job : JobResult) : CompletedJobsState × Nat :=
  let currentTimestamp := now acc.2
  let st := acc.1
  ({ st with
      lastAnalysisTimestamp := some currentTimestamp,
      insights := st.insights ++
        [{ id := job.jobId, content := jobAnalysisData job, timestamp := currentTimestamp }],
      sentMessages := st.sentMessages ++
        ["[Background Analysis] " ++ jobAnalysisData job] },
   acc.2 + 1)

/-- One run of the completed-jobs reconciliation effect. -/
def processCompletedJobs (jobStatuses : List JobResult) (now : Nat → String)
    (st : CompletedJobsState) : CompletedJobsState :=
  let completedJobs := jobStatuses.filter isCompletedJob
  if completedJobs.length > 0 then
    let afterEach := (completedJobs.foldl (completedJobStep now) (st, 0)).1
    { afterEach with
        workerIds := afterEach.workerIds.filter
          (fun id => !(completedJobs.any (fun job => job.jobId == id))) }
  else st

-- ────────────────────────────────────────────────────────────────────────
--  HomePage: handleFinishConsultation (module-scope declaration)
-- ────────────────────────────────────────────────────────────────────────

/-- Outcome of running a JavaScript function body: normal completion or an
uncaught ReferenceError naming the unresolved identifier. -/
inductive ExecOutcome where
  | normal
  | referenceError (name : String)
  deriving DecidableEq, Repr

/-- First identifier of a statement not bound in the lexical environment:
reading it throws a ReferenceError. -/
def firstMissingRef (env : List String) (refs : List String) : Option String :=
  refs.find? (fun r => !(env.contains r))

/-- Run a statement sequence: each statement is the list of non-local
identifiers it reads, in evaluation order; the result is the first
unresolvable identifier, if any. -/
def runStmtSeq (env : List String) : List (List String) → Option String
  | [] => none
  | refs :: rest =>
    match firstMissingRef env refs with
    | some r => some r
    | none => runStmtSeq env rest

/-- Run a `try ... catch` body: a ReferenceError in the try block transfers
control to the catch block; a ReferenceError in the catch block escapes. -/
def runTryCatch (env : List String) (tryBlock catchBlock : List (List String)) :
    ExecOutcome :=
  match runStmtSeq env tryBlock with
  | none => .normal
  | some _ =>
    match runStmtSeq env catchBlock with
    | none => .normal
    | some r => .referenceError r

/-- Identifiers bound at module scope of the HomePage file: the imports, the
two top-level declarations, and the JavaScript globals the file uses.
Component-local bindings (state setters, hook results) are NOT here because
`handleFinishConsultation` is declared outside the component. -/
def moduleScopeIdentifiers : List String :=
  ["useEffect", "useRef", "useState", "useAuth", "useRouter", "motion",
   "AnimatePresence", "Mic", "MicOff", "Pause", "Play", "X", "Check",
   "useConversation", "useWebRTC", "useKioskSession", "api", "BoothLogo",
   "Blob", "ConfirmDialog", "ControlButton", "FileUploadSection",
   "SessionIdDisplay", "WorkerStatus", "AnalysisStatus", "AnalyzedFilesList",
   "InsightsList", "PulsingBlob", "HomePage", "handleFinishConsultation",
   "console", "fetch", "JSON", "Error", "Date", "FormData", "Set", "Array",
   "encodeURIComponent", "Infinity", "setTimeout", "clearTimeout"]

/-- Statements of the try block of `handleFinishConsultation`, each given as
the non-local identifiers it reads, in order (function-local bindings such as
`conversationForSummary`, `response`, `summary` are resolved in function
scope and omitted). -/
def finishConsultationTryBlock : List (List String) :=
  [["setIsGeneratingSummary"],
   ["messages"],
   ["analyzedFiles"],
   ["insights"],
   ["fetch", "JSON"],
   ["Error"],
   [],
   ["disconnect"],
   ["router", "encodeURIComponent"]]

/-- Statements of the catch block of `handleFinishConsultation`. -/
def finishConsultationCatchBlock : List (List String) :=
  [["console"],
   ["setIsGeneratingSummary"]]

/-- Invoking `handleFinishConsultation` with the lexical environment its
module-scope declaration closes over. -/
def handleFinishConsultation (env : List String) : ExecOutcome :=
  runTryCatch env finishConsultationTryBlock finishConsultationCatchBlock

-- ────────────────────────────────────────────────────────────────────────
--  Prisma schema: Session, Conversation, ChatMessage, HealthMarker
-- ────────────────────────────────────────────────────────────────────────

/-- A row of the Session model (scalar columns relevant to the claims). -/
structure Session where
  id : String
  userId : String
  kioskId : String
  state : String
  deriving DecidableEq, Repr

/-- A row of the Conversation model: `sessionId` is a foreign key into
Session and is declared `@unique`. -/
structure Conversation where
  id : String
  sessionId : String
  deriving DecidableEq, Repr

/-- A row of the ChatMessage model: `conversationId` is a foreign key into
Conversation. -/
structure ChatMessage where
  id : String
  conversationId : String
  sender : String
  messageText : String
  deriving DecidableEq, Repr

/-- A row of the HealthMarker model: `sessionId` is a foreign key into
Session. -/
structure HealthMarker where
  id : String
  sessionId : String
  markerType : String
  data : String
  deviceId : Option String
  deriving DecidableEq, Repr

/-- A database instance over the four models the claims mention. -/
structure Database where
  sessions : List Session
  conversations : List Conversation
  chatMessages : List ChatMessage
  healthMarkers : List HealthMarker
  deriving DecidableEq, Repr

/-- The integrity constraints the Prisma schema declares on these models:
primary-key uniqueness (`@id`), the `@unique` constraint on
`Conversation.sessionId`, and referential integrity of the three
`@relation(fields: ..., references: [id])` foreign keys. -/
def Database.WF (db : Database) : Prop :=
  (∀ s1 ∈ db.sessions, ∀ s2 ∈ db.sessions, s1.id = s2.id → s1 = s2) ∧
  (∀ c1 ∈ db.conversations, ∀ c2 ∈ db.conversations, c1.id = c2.id → c1 = c2) ∧
  (∀ c1 ∈ db.conversations, ∀ c2 ∈ db.conversations,
      c1.sessionId = c2.sessionId → c1 = c2) ∧
  (∀ c ∈ db.conversations, ∃ s ∈ db.sessions, s.id = c.sessionId) ∧
  (∀ m ∈ db.chatMessages, ∃ c ∈ db.conversations, c.id = m.conversationId) ∧
  (∀ h ∈ db.healthMarkers, ∃ s ∈ db.sessions, s.id = h.sessionId)

-- ────────────────────────────────────────────────────────────────────────
--  Sample inputs used by the witnesses
-- ────────────────────────────────────────────────────────────────────────

/-- A user message. -/
def msgA : Msg :=
  { role := "user", content := "I have a headache", timestamp := "2025-02-23T10:00:00.000Z" }

/-- A second, different user message. -/
def msgB : Msg :=
  { role := "user", content := "It is getting worse", timestamp := "2025-02-23T10:00:05.000Z" }

/-- An assistant message. -/
def msgC : Msg :=
  { role := "assistant", content := "How long has this lasted?", timestamp := "2025-02-23T10:00:09.000Z" }

/-- A polled job that satisfies the completed-jobs predicate. -/
def sampleJob : JobResult :=
  { jobId := "job-1", status := "completed",
    data := some { processed := .bool true, data := .str "stay hydrated" } }

/-- Component state holding the sample job id among the worker ids. -/
def sampleState : CompletedJobsState :=
  { insights := [], workerIds := ["job-1", "job-2"],
    lastAnalysisTimestamp := none, sentMessages := [] }

/-- A well-formed one-session database instance. -/
def sampleDb : Database :=
  { sessions := [{ id := "s1", userId := "u1", kioskId := "k1", state := "IN_PROGRESS" }],
    conversations := [{ id := "c1", sessionId := "s1" }],
    chatMessages := [{ id := "m1", conversationId := "c1", sender := "user",
                       messageText := "hello" }],
    healthMarkers := [{ id := "h1", sessionId := "s1", markerType := "weight",
                        data := "70", deviceId := none }] }

/-- A JSON body containing only a query string. -/
def queryOnlyBody : Json := .obj [("query", .str "q")]

/-- A JSON body with a query and an explicit maxResults. -/
def maxResultsBody (n : Int) : Json :=
  .obj [("query", .str "q"), ("maxResults", .num n)]

/-- The parameters the schema produces from `queryOnlyBody`. -/
def defaultedParams : TavilyParams :=
  { query := "q", searchDepth := "basic", topic := "general", days := 3,
    timeRange := none, maxResults := 5, includeImages := false,
    includeImageDescriptions := false, includeAnswer := .bool false,
    includeRawContent := false, includeDomains := [], excludeDomains := [] }

-- ────────────────────────────────────────────────────────────────────────
--  Theorems
-- ────────────────────────────────────────────────────────────────────────

/-- Claim C3: if `handleTogglePause` runs while unpaused and `pauseSession`
rejects, the pause flag stays false; if it runs while paused and
`resumeSession` rejects, the flag stays true; the flag changes only when the
corresponding promise resolves. -/
theorem claim_C3 (pauseSession resumeSession : Except String Unit) :
    (∀ e, pauseSession = .error e →
      handleTogglePause false pauseSession resumeSession = false) ∧
    (∀ e, resumeSession = .error e →
      handleTogglePause true pauseSession resumeSession = true) ∧
    (∀ p : Bool, handleTogglePause p pauseSession resumeSession ≠ p →
      (p = false ∧ pauseSession = .ok ()) ∨ (p = true ∧ resumeSession = .ok ())) := by
  refine ⟨?_, ?_, ?_⟩
  · intro e he; simp [handleTogglePause, he]
  · intro e he; simp [handleTogglePause, he]
  · intro p hp
    cases p with
    | false =>
      cases hps : pauseSession with
      | ok u => exact Or.inl ⟨rfl, by cases u; rfl⟩
      | error e => exact absurd (by simp [handleTogglePause, hps]) hp
    | true =>
      cases hrs : resumeSession with
      | ok u => exact Or.inr ⟨rfl, by cases u; rfl⟩
      | error e => exact absurd (by simp [handleTogglePause, hrs]) hp

/-- Witness for claim C3 at concrete rejected and resolved promises. -/
theorem claim_C3_witness :
    handleTogglePause false (.error "pause failed") (.ok ()) = false ∧
    handleTogglePause true (.ok ()) (.error "resume failed") = true :=
  ⟨(claim_C3 (.error "pause failed") (.ok ())).1 "pause failed" rfl,
   (claim_C3 (.ok ()) (.error "resume failed")).2.1 "resume failed" rfl⟩

/-- Claim C4: the connection effect calls `connect` exactly when the
consultation is started, the connection is down, and it is not loading; it
calls `disconnect` exactly when the consultation is not started while the
connection is up; otherwise it does neither. -/
theorem claim_C4 :
    ∀ isConsultationStarted isConnected isLoading : Bool,
      (handleConnection isConsultationStarted isConnected isLoading = .connect ↔
        isConsultationStarted = true ∧ isConnected = false ∧ isLoading = false) ∧
      (handleConnection isConsultationStarted isConnected isLoading = .disconnect ↔
        isConsultationStarted = false ∧ isConnected = true) := by
  decide

/-- Claim C9: invoking the module-scope `handleFinishConsultation` with the
environment its declaration closes over throws a ReferenceError (the state
setter is only bound inside the component), so it never completes normally
and the summary-and-redirect path is unreachable. -/
theorem claim_C9 :
    handleFinishConsultation moduleScopeIdentifiers =
      .referenceError "setIsGeneratingSummary" ∧
    handleFinishConsultation moduleScopeIdentifiers ≠ .normal := by
  decide

/-- Claim C10 counterexample: the guard remembers only the most recent
analyzed message, so a last user message with identical timestamp and
content is submitted twice when a different message intervenes: runs over
the snapshots [A], [A, B], [A, B, A] submit A in the first and third run. -/
theorem claim_C10_counterexample :
    (analysisSubmissions [[msgA], [msgA, msgB], [msgA, msgB, msgA]]).countP
      (fun m => m.timestamp == msgA.timestamp && m.content == msgA.content) = 2 := by
  decide

/-- Claim C10 (amended): a run that submits has a last message with role
"user" whose content does not contain "[Background Analysis]" and that
differs from the remembered last-analyzed (timestamp, content) pair; the
run records the pair, so an immediately following run whose last message has
the same timestamp and content does not submit. -/
theorem claim_C10 (messages : List Msg) (ref : Option (String × String)) (m : Msg)
    (hlast : messages.getLast? = some m)
    (hsub : (performContinuousAnalysis messages ref).2 = true) :
    m.role = "user" ∧
    containsSub m.content "[Background Analysis]" = false ∧
    ref ≠ some (m.timestamp, m.content) ∧
    (performContinuousAnalysis messages ref).1 = some (m.timestamp, m.content) ∧
    (∀ (messages2 : List Msg) (m2 : Msg), messages2.getLast? = some m2 →
      m2.timestamp = m.timestamp → m2.content = m.content →
      (performContinuousAnalysis messages2
        (performContinuousAnalysis messages ref).1).2 = false) := by
  have heval : performContinuousAnalysis messages ref =
      if analysisSkipGuard m ref then (ref, false)
      else (some (m.timestamp, m.content), true) := by
    unfold performContinuousAnalysis
    rw [hlast]
  by_cases hg : analysisSkipGuard m ref = true
  · rw [heval, if_pos hg] at hsub
    simp at hsub
  · have hgf : analysisSkipGuard m ref = false := by
      revert hg; cases analysisSkipGuard m ref <;> simp
    have hrun : performContinuousAnalysis messages ref =
        (some (m.timestamp, m.content), true) := by
      rw [heval, if_neg (by simp [hgf])]
    unfold analysisSkipGuard at hgf
    simp only [Bool.or_eq_false_iff] at hgf
    obtain ⟨⟨hrole, hcontains⟩, hrefmatch⟩ := hgf
    refine ⟨by simpa using hrole, hcontains, ?_, by rw [hrun], ?_⟩
    · intro hrefeq
      rw [hrefeq] at hrefmatch
      simp at hrefmatch
    · intro messages2 m2 hlast2 hts hct
      have h1 : (performContinuousAnalysis messages ref).1 =
          some (m.timestamp, m.content) := by rw [hrun]
      rw [h1]
      have hg2 : analysisSkipGuard m2 (some (m.timestamp, m.content)) = true := by
        unfold analysisSkipGuard
        simp [hts, hct]
      unfold performContinuousAnalysis
      rw [hlast2]
      simp [hg2]

/-- Witness for claim C10 (amended) at a concrete run: submitting msgA from
an empty ref, then seeing msgA again as the last message. -/
theorem claim_C10_witness :
    [msgA].getLast? = some msgA ∧
    (performContinuousAnalysis [msgA] none).2 = true ∧
    (performContinuousAnalysis [msgA, msgB, msgA]
      (performContinuousAnalysis [msgA] none).1).2 = false := by
  refine ⟨rfl, rfl, ?_⟩
  exact (claim_C10 [msgA] none msgA rfl rfl).2.2.2.2 [msgA, msgB, msgA] msgA rfl rfl rfl

/-- Claim C1: the tavily-search POST responds 500 with a success-false error
body exactly when the request body fails JSON parsing, fails schema
validation, or the Tavily search call rejects; every other request avoids
status 500. -/
theorem claim_C1 (requestBody : Except String Json)
    (search : TavilyParams → Except String Json) :
    ((POST requestBody search).status = 500 ↔
      ((∃ e, requestBody = .error e) ∨
       (∃ body e, requestBody = .ok body ∧ TavilySearchSchema body = .error e) ∨
       (∃ body params e, requestBody = .ok body ∧
          TavilySearchSchema body = .ok params ∧ search params = .error e))) ∧
    ((POST requestBody search).status = 500 →
      ∃ msg, (POST requestBody search).body =
        .obj [("success", .bool false), ("error", .str msg)]) := by
  cases requestBody with
  | error e =>
    refine ⟨⟨fun _ => Or.inl ⟨e, rfl⟩, fun _ => rfl⟩, fun _ => ⟨e, rfl⟩⟩
  | ok body =>
    cases hparse : TavilySearchSchema body with
    | error e =>
      have hpost : POST (.ok body) search = tavilyCatch e := by
        simp only [POST, hparse]
      rw [hpost]
      exact ⟨⟨fun _ => Or.inr (Or.inl ⟨body, e, rfl, hparse⟩), fun _ => rfl⟩,
        fun _ => ⟨e, rfl⟩⟩
    | ok params =>
      cases hsearch : search params with
      | error e =>
        have hpost : POST (.ok body) search = tavilyCatch e := by
          simp only [POST, hparse, hsearch]
        rw [hpost]
        exact ⟨⟨fun _ => Or.inr (Or.inr ⟨body, params, e, rfl, hparse, hsearch⟩),
          fun _ => rfl⟩, fun _ => ⟨e, rfl⟩⟩
      | ok result =>
        have hpost : POST (.ok body) search =
            { status := 200, body := .obj [("success", .bool true), ("result", result)] } := by
          simp only [POST, hparse, hsearch]
        rw [hpost]
        constructor
        · constructor
          · intro h; simp at h
          · rintro (⟨e, he⟩ | ⟨b, e, hb, hp⟩ | ⟨b, p, e, hb, hp, hs⟩)
            · simp at he
            · injection hb with hb2
              subst hb2
              rw [hparse] at hp
              simp at hp
            · injection hb with hb2
              subst hb2
              rw [hparse] at hp
              injection hp with hp2
              subst hp2
              rw [hsearch] at hs
              simp at hs
        · intro h; simp at h

/-- Witness for claim C1: a request whose body fails JSON parsing gets a 500
response with the success-false body. -/
theorem claim_C1_witness :
    (POST (.error "invalid json") (fun _ => .ok Json.null)).status = 500 ∧
    ∃ msg, (POST (.error "invalid json") (fun _ => .ok Json.null)).body =
      .obj [("success", .bool false), ("error", .str msg)] :=
  ⟨(claim_C1 (.error "invalid json") (fun _ => .ok Json.null)).1.mpr
      (Or.inl ⟨"invalid json", rfl⟩),
   (claim_C1 (.error "invalid json") (fun _ => .ok Json.null)).2
      ((claim_C1 (.error "invalid json") (fun _ => .ok Json.null)).1.mpr
        (Or.inl ⟨"invalid json", rfl⟩))⟩

/-- Claim C2: when the request body parses and validates, the POST handler
responds with success-true and exactly the value the Tavily client returned
for the validated parameters. -/
theorem claim_C2 (body : Json) (params : TavilyParams) (result : Json)
    (search : TavilyParams → Except String Json)
    (hparse : TavilySearchSchema body = .ok params)
    (hsearch : search params = .ok result) :
    POST (.ok body) search =
      { status := 200, body := .obj [("success", .bool true), ("result", result)] } := by
  simp only [POST, hparse, hsearch]

/-- Witness for claim C2 at the minimal body and a constant search result. -/
theorem claim_C2_witness :
    TavilySearchSchema queryOnlyBody = .ok defaultedParams ∧
    POST (.ok queryOnlyBody) (fun _ => .ok (.str "r")) =
      { status := 200, body := .obj [("success", .bool true), ("result", .str "r")] } :=
  ⟨rfl, claim_C2 queryOnlyBody defaultedParams (.str "r")
    (fun _ => .ok (.str "r")) rfl rfl⟩

/-- Claim C8: the schema accepts `maxResults` exactly in the range 0..20, a
body with maxResults outside that range makes the route answer 500, and a
body holding only a query string validates to the documented defaults. -/
theorem claim_C8 :
    (∀ n : Int, (∃ p, TavilySearchSchema (maxResultsBody n) = .ok p) ↔
      0 ≤ n ∧ n ≤ 20) ∧
    (∀ n : Int, (n < 0 ∨ 20 < n) →
      ∀ search, (POST (.ok (maxResultsBody n)) search).status = 500) ∧
    TavilySearchSchema queryOnlyBody = .ok defaultedParams := by
  have hA : ∀ n : Int, (∃ p, TavilySearchSchema (maxResultsBody n) = .ok p) ↔
      0 ≤ n ∧ n ≤ 20 := by
    intro n
    have h0 : TavilySearchSchema (maxResultsBody n) =
        Except.bind (zNumberMinMax 0 20 (Json.num n))
          (fun m => Except.ok { defaultedParams with maxResults := m }) := rfl
    rw [h0]
    simp only [zNumberMinMax, zNumber]
    split_ifs with h1 h2
    · simp only [Except.bind]
      constructor
      · rintro ⟨p, hp⟩; exact absurd hp (by simp)
      · intro h; omega
    · simp only [Except.bind]
      constructor
      · rintro ⟨p, hp⟩; exact absurd hp (by simp)
      · intro h; omega
    · simp only [Except.bind]
      constructor
      · intro _; omega
      · intro _; exact ⟨_, rfl⟩
  refine ⟨hA, ?_, rfl⟩
  intro n hn search
  cases hts : TavilySearchSchema (maxResultsBody n) with
  | ok p => exact absurd ((hA n).mp ⟨p, hts⟩) (by omega)
  | error e =>
    simp only [POST, hts]
    rfl

/-- Witness for claim C8: maxResults below 0 and above 20 both drive the
route to a 500 response. -/
theorem claim_C8_witness :
    ((-1 : Int) < 0 ∨ 20 < (-1 : Int)) ∧
    (POST (.ok (maxResultsBody (-1))) (fun _ => .ok Json.null)).status = 500 ∧
    (POST (.ok (maxResultsBody 21)) (fun _ => .ok Json.null)).status = 500 :=
  ⟨Or.inl (by norm_num),
   claim_C8.2.1 (-1) (Or.inl (by norm_num)) (fun _ => .ok Json.null),
   claim_C8.2.1 21 (Or.inr (by norm_num)) (fun _ => .ok Json.null)⟩

/-- Claim C6: the realtime-session GET returns the upstream session data
unchanged when the upstream fetch resolves OK, and a 500 with the
failed-to-create-session body when the upstream is non-OK or the fetch
rejects. -/
theorem claim_C6 (fetchResult : Except String UpstreamResponse) :
    (∀ r, fetchResult = .ok r → r.ok = true →
      GET fetchResult = { status := 200, body := r.body }) ∧
    (∀ r, fetchResult = .ok r → r.ok = false →
      (GET fetchResult).status = 500 ∧
      (GET fetchResult).body =
        .obj [("error", .str "Failed to create session"),
          ("details", .str ("OpenAI API error: " ++ toString r.status ++ " - "
            ++ jsonStringify r.body))]) ∧
    (∀ e, fetchResult = .error e →
      (GET fetchResult).status = 500 ∧
      (GET fetchResult).body =
        .obj [("error", .str "Failed to create session"), ("details", .str e)]) := by
  refine ⟨?_, ?_, ?_⟩
  · intro r hr hok
    subst hr
    unfold GET
    simp [hok]
  · intro r hr hok
    subst hr
    unfold GET
    simp [hok, realtimeCatch]
  · intro e he
    subst he
    exact ⟨rfl, rfl⟩

/-- Witness for claim C6 at a concrete OK upstream response and a concrete
rejected fetch. -/
theorem claim_C6_witness :
    GET (.ok { ok := true, status := 200, body := .str "session-data" }) =
      { status := 200, body := .str "session-data" } ∧
    (GET (.error "network down")).status = 500 ∧
    (GET (.error "network down")).body =
      .obj [("error", .str "Failed to create session"),
        ("details", .str "network down")] :=
  ⟨(claim_C6 (.ok { ok := true, status := 200, body := .str "session-data" })).1
      { ok := true, status := 200, body := .str "session-data" } rfl rfl,
   (claim_C6 (.error "network down")).2.2 "network down" rfl⟩

/-- The insights appended by the completed-jobs loop for a list of jobs,
starting at iteration index k. -/
def insightsOf (now : Nat → String) (k : Nat) : List JobResult → List Insight
  | [] => []
  | j :: js =>
    { id := j.jobId, content := jobAnalysisData j, timestamp := now k } ::
      insightsOf now (k + 1) js

/-- Unrolling the `forEach` fold of the completed-jobs effect: it appends one
insight per job and never touches `workerIds`. -/
lemma foldl_completedJobStep (now : Nat → String) :
    ∀ (jobs : List JobResult) (st : CompletedJobsState) (k : Nat),
      ((jobs.foldl (completedJobStep now) (st, k)).1.insights =
        st.insights ++ insightsOf now k jobs) ∧
      ((jobs.foldl (completedJobStep now) (st, k)).1.workerIds = st.workerIds) := by
  intro jobs
  induction jobs with
  | nil => intro st k; simp [insightsOf]
  | cons j js ih =>
    intro st k
    have hstep : completedJobStep now (st, k) j =
        ({ st with
            lastAnalysisTimestamp := some (now k),
            insights := st.insights ++
              [{ id := j.jobId, content := jobAnalysisData j, timestamp := now k }],
            sentMessages := st.sentMessages ++
              ["[Background Analysis] " ++ jobAnalysisData j] },
         k + 1) := rfl
    simp only [List.foldl_cons, insightsOf, hstep]
    constructor
    · rw [(ih _ _).1]
      simp
    · exact (ih _ _).2

/-- The completed-jobs effect appends exactly the insights of the qualifying
jobs to the existing insights. -/
lemma processCompletedJobs_insights (jobStatuses : List JobResult)
    (now : Nat → String) (st : CompletedJobsState) :
    (processCompletedJobs jobStatuses now st).insights =
      st.insights ++ insightsOf now 0 (jobStatuses.filter isCompletedJob) := by
  unfold processCompletedJobs
  by_cases hnil : jobStatuses.filter isCompletedJob = []
  · rw [hnil]
    simp [insightsOf]
  · rw [if_pos (by simpa [List.length_pos] using hnil)]
    exact (foldl_completedJobStep now (jobStatuses.filter isCompletedJob) st 0).1

/-- The completed-jobs effect removes from `workerIds` exactly the ids of
qualifying jobs. -/
lemma processCompletedJobs_workerIds (jobStatuses : List JobResult)
    (now : Nat → String) (st : CompletedJobsState) :
    (processCompletedJobs jobStatuses now st).workerIds =
      st.workerIds.filter (fun id =>
        !((jobStatuses.filter isCompletedJob).any (fun job => job.jobId == id))) := by
  unfold processCompletedJobs
  by_cases hnil : jobStatuses.filter isCompletedJob = []
  · rw [hnil]
    simp
  · rw [if_pos (by simpa [List.length_pos] using hnil)]
    dsimp only
    rw [(foldl_completedJobStep now (jobStatuses.filter isCompletedJob) st 0).2]

/-- The appended insights carry exactly one (id, content) pair per
qualifying job: the job id and the job data string, in order. -/
lemma insightsOf_map (now : Nat → String) :
    ∀ (jobs : List JobResult) (k : Nat),
      (insightsOf now k jobs).map (fun i => (i.id, i.content)) =
        jobs.map (fun j => (j.jobId, jobAnalysisData j)) := by
  intro jobs
  induction jobs with
  | nil => intro k; rfl
  | cons j js ih =>
    intro k
    simp only [insightsOf, List.map_cons]
    rw [ih]

/-- Claim C5: each run of the completed-jobs effect gives every qualifying
polled job exactly one new insight (id = its jobId, content = its data
string), removes the qualifying job ids from workerIds, and leaves insights
and workerIds unchanged by non-qualifying jobs (in particular entirely
unchanged when no job qualifies). -/
theorem claim_C5 (jobStatuses : List JobResult) (now : Nat → String)
    (st : CompletedJobsState) :
    ((processCompletedJobs jobStatuses now st).insights =
      st.insights ++ insightsOf now 0 (jobStatuses.filter isCompletedJob)) ∧
    ((insightsOf now 0 (jobStatuses.filter isCompletedJob)).map
        (fun i => (i.id, i.content)) =
      (jobStatuses.filter isCompletedJob).map
        (fun j => (j.jobId, jobAnalysisData j))) ∧
    ((processCompletedJobs jobStatuses now st).workerIds =
      st.workerIds.filter (fun id =>
        !((jobStatuses.filter isCompletedJob).any (fun job => job.jobId == id)))) ∧
    (∀ job ∈ jobStatuses.filter isCompletedJob,
      job.jobId ∉ (processCompletedJobs jobStatuses now st).workerIds) ∧
    (jobStatuses.filter isCompletedJob = [] →
      processCompletedJobs jobStatuses now st = st) := by
  refine ⟨processCompletedJobs_insights jobStatuses now st,
    insightsOf_map now (jobStatuses.filter isCompletedJob) 0,
    processCompletedJobs_workerIds jobStatuses now st, ?_, ?_⟩
  · intro job hjob hmem
    rw [processCompletedJobs_workerIds jobStatuses now st] at hmem
    have hpred := (List.mem_filter.mp hmem).2
    have hany : (jobStatuses.filter isCompletedJob).any
        (fun j2 => j2.jobId == job.jobId) = true :=
      List.any_eq_true.mpr ⟨job, hjob, by simp⟩
    simp [hany] at hpred
  · intro hnil
    unfold processCompletedJobs
    rw [hnil]
    simp

/-- Witness for claim C5: a concrete qualifying job gets its insight and its
id is removed from the worker ids. -/
theorem claim_C5_witness :
    sampleJob ∈ [sampleJob].filter isCompletedJob ∧
    sampleJob.jobId ∉
      (processCompletedJobs [sampleJob]
        (fun _ => "2025-02-23T10:00:10.000Z") sampleState).workerIds := by
  have hmem : sampleJob ∈ [sampleJob].filter isCompletedJob := by
    rw [show [sampleJob].filter isCompletedJob = [sampleJob] from rfl]
    exact List.mem_singleton.mpr rfl
  exact ⟨hmem,
    (claim_C5 [sampleJob] (fun _ => "2025-02-23T10:00:10.000Z")
      sampleState).2.2.2.1 sampleJob hmem⟩

/-- Claim C7: in a database satisfying the schema constraints, every
HealthMarker row references an existing Session, and every ChatMessage row
references a Conversation that in turn references a unique Session, so no
health marker or chat message exists without an owning session. -/
theorem claim_C7 (db : Database) (hwf : db.WF) :
    (∀ hm ∈ db.healthMarkers, ∃ s ∈ db.sessions, s.id = hm.sessionId) ∧
    (∀ m ∈ db.chatMessages, ∃ c ∈ db.conversations,
      c.id = m.conversationId ∧
        ∃! s : Session, s ∈ db.sessions ∧ s.id = c.sessionId) := by
  obtain ⟨hspk, hcpk, hcuniq, hcfk, hmfk, hhfk⟩ := hwf
  refine ⟨hhfk, ?_⟩
  intro m hm
  obtain ⟨c, hc, hcid⟩ := hmfk m hm
  obtain ⟨s, hs, hsid⟩ := hcfk c hc
  refine ⟨c, hc, hcid, s, ⟨hs, hsid⟩, ?_⟩
  rintro s2 ⟨hs2, hsid2⟩
  exact hspk s2 hs2 s hs (by rw [hsid2, hsid])

/-- Witness for claim C7: a concrete well-formed database. -/
theorem claim_C7_witness :
    sampleDb.WF ∧
    (∀ hm ∈ sampleDb.healthMarkers, ∃ s ∈ sampleDb.sessions, s.id = hm.sessionId) := by
  have hwf : sampleDb.WF := by
    unfold Database.WF
    decide
  exact ⟨hwf, (claim_C7 sampleDb hwf).1⟩

end Booth
